import Mathlib

/-!
Verification of the VectHare YAKE keyword-extraction server
(`src/yake_server.py`).

The server is a Flask application with two endpoints:

* `GET /health` — a constant health payload;
* `POST /extract` — parse the JSON body, validate the `text` field,
  resolve the optional tuning parameters with per-field defaults, invoke
  the YAKE extraction capability, truncate its output with the Python
  slice `raw_keywords[:max_keywords]`, and shape the response; every
  exception raised inside the `try` block of the handler is caught and
  reported as a 500-class error.

The embedding models Python values reaching the handler (`PyVal`), the
Python operations the handler performs on them (truthiness, `in`,
subscripting, `dict.get`, list slicing) including the TypeError cases
they can raise, and the YAKE extractor as an opaque capability parameter
returning either a list of (phrase, score) pairs or an error message.
Scores are modelled as rationals; the handler only passes them through.
The handler returns, besides its HTTP result, the list of capability
invocations it performed, so that claims about the capability never or
exactly once being invoked can be stated.
-/

namespace YakeServer

/-- A Python value as it can reach the `/extract` handler after Flask has
parsed the request body (`request.json`): JSON null, booleans, numbers
(integers and non-integers kept apart, as Python does), strings, arrays
and objects. -/
inductive PyVal where
  | none
  | bool (b : Bool)
  | int (n : Int)
  | float (q : Rat)
  | str (s : String)
  | list (xs : List PyVal)
  | dict (kvs : List (String × PyVal))

/-- Python truthiness (`bool(v)`): `None`, `False`, zero, the empty
string and empty containers are falsy. -/
def PyVal.truthy : PyVal → Bool
  | .none => false
  | .bool b => b
  | .int n => n != 0
  | .float q => q != 0
  | .str s => s != ""
  | .list xs => !xs.isEmpty
  | .dict kvs => !kvs.isEmpty

/-- Python `isinstance(v, str)`. -/
def PyVal.isStr : PyVal → Bool
  | .str _ => true
  | _ => false

/-- The underlying string of a `PyVal.str`; junk (`""`) elsewhere.  The
handler reads it only after `isinstance(text, str)` has succeeded. -/
def PyVal.asStr : PyVal → String
  | .str s => s
  | _ => ""

/-- Is `key` a substring of `s`?  (Python `in` on strings.) -/
def strContainsSub (s key : String) : Bool :=
  s.toList.tails.any (fun t => key.toList.isPrefixOf t)

/-- Python `key in v` for a string `key`: key membership for dicts,
element equality for lists (a string equals only an equal string),
substring test for strings, and a `TypeError` for non-iterable values.
`None` is falsy, so the handler never reaches the `in` test on it, but
the model is total. -/
def pyContainsStr (key : String) : PyVal → Except String Bool
  | .dict kvs => .ok (kvs.any (fun kv => kv.1 == key))
  | .list xs => .ok (xs.any (fun v => match v with | .str s => s == key | _ => false))
  | .str s => .ok (strContainsSub s key)
  | .int _ => .error "TypeError: argument of type int is not iterable"
  | .float _ => .error "TypeError: argument of type float is not iterable"
  | .bool _ => .error "TypeError: argument of type bool is not iterable"
  | .none => .error "TypeError: argument of type NoneType is not iterable"

/-- Python `v[key]` for a string `key`: dict lookup (raising `KeyError`
when absent), a `TypeError` on strings, lists and everything else. -/
def pySubscrStr (key : String) : PyVal → Except String PyVal
  | .dict kvs =>
      match kvs.find? (fun kv => kv.1 == key) with
      | some kv => .ok kv.2
      | Option.none => .error ("KeyError: " ++ key)
  | .str _ => .error "TypeError: string indices must be integers"
  | .list _ => .error "TypeError: list indices must be integers or slices, not str"
  | _ => .error "TypeError: object is not subscriptable"

/-- Python `v.get(key, default)`: defined on dicts; an `AttributeError`
elsewhere (unreachable in the handler, which subscripts `data` first). -/
def pyGet (key : String) (default : PyVal) : PyVal → Except String PyVal
  | .dict kvs => .ok (((kvs.find? (fun kv => kv.1 == key)).map (fun kv => kv.2)).getD default)
  | _ => .error "AttributeError: object has no attribute get"

/-- Python slice `xs[:k]` for a `PyVal` bound `k`: for an integer
`k ≥ 0` the first `k` elements, for a negative `k` all but the last
`|k|` elements; `bool` is an `int` subclass (`True = 1`, `False = 0`);
a `None` bound means no bound, returning the whole list; any other type
raises `TypeError`. -/
def pySliceTo {α : Type} (xs : List α) : PyVal → Except String (List α)
  | .int k =>
      .ok (if 0 ≤ k then xs.take k.toNat else xs.take (xs.length - (-k).toNat))
  | .bool b => .ok (xs.take (if b then 1 else 0))
  | .none => .ok xs
  | _ => .error "TypeError: slice indices must be integers or None"

/-- Line 27 of `src/yake_server.py`. -/
def DEFAULT_LANGUAGE : String := "en"

/-- Line 28 of `src/yake_server.py`. -/
def DEFAULT_MAX_KEYWORDS : Int := 10

/-- Line 29 of `src/yake_server.py`. -/
def DEFAULT_DEDUPLICATION_THRESHOLD : Rat := 9 / 10

/-- Line 30 of `src/yake_server.py`. -/
def DEFAULT_DEDUPLICATION_ALGO : String := "seqm"

/-- Line 31 of `src/yake_server.py`. -/
def DEFAULT_WINDOW_SIZE : Int := 1

/-- Line 32 of `src/yake_server.py`. -/
def DEFAULT_TOP_N : Int := 10

/-- The arguments of one invocation of the YAKE capability: the keyword
arguments of `yake.KeywordExtractor(...)` (lines 93-100, passed through
from the request without type checking, hence `PyVal`) together with the
validated `text` passed to `extract_keywords` (line 105). -/
structure ExtractionCall where
  lan : PyVal
  n : PyVal
  dedupLim : PyVal
  dedupFunc : PyVal
  top : PyVal
  text : String

/-- The extraction capability: constructing the extractor and running it
on the text, returning (phrase, score) pairs ordered most relevant
first, or failing with its own error message.  Opaque to the core. -/
def Cap : Type := ExtractionCall → Except String (List (String × Rat))

/-- A keyword record of the response body (line 108-114). -/
structure Keyword where
  text : String
  score : Rat
deriving DecidableEq, Repr

/-- The success body: `keywords` and `count` (lines 116-119). -/
structure ExtractionResponse where
  keywords : List Keyword
  count : Nat
deriving DecidableEq, Repr

/-- The three response shapes the handler can produce: 200 with an
`ExtractionResponse`, 400 with an `error` message, 500 with an `error`
message. -/
inductive HttpResult where
  | ok (resp : ExtractionResponse)
  | badRequest (error : String)
  | serverError (error : String)
deriving DecidableEq, Repr

/-- The HTTP status code of each response shape. -/
def HttpResult.statusCode : HttpResult → Nat
  | .ok _ => 200
  | .badRequest _ => 400
  | .serverError _ => 500

/-- Outcome of the validation and parameter-resolution phase
(lines 72-90): either an early 400 `return` with its message, or the
resolved capability arguments together with the raw `max_keywords`
value. -/
inductive Resolved where
  | reject (msg : String)
  | proceed (call : ExtractionCall) (max_keywords : PyVal)

/-- Lines 72-90 of the handler: the falsiness / membership test on
`data`, the subscript reading the text field of `data`, the `text`
validation, and the six `data.get(...)` calls resolving per-field
defaults.  Exceptions raised by the Python operations propagate in the
`Except` monad. -/
def resolveRequest (data : PyVal) : Except String Resolved := do
  if !data.truthy then
    return .reject "Missing required field: text"
  let hasText ← pyContainsStr "text" data
  if !hasText then
    return .reject "Missing required field: text"
  let text ← pySubscrStr "text" data
  if !text.truthy || !text.isStr then
    return .reject "Invalid text field: must be non-empty string"
  let language ← pyGet "language" (.str DEFAULT_LANGUAGE) data
  let max_keywords ← pyGet "maxKeywords" (.int DEFAULT_MAX_KEYWORDS) data
  let dedup_threshold ← pyGet "deduplicationThreshold" (.float DEFAULT_DEDUPLICATION_THRESHOLD) data
  let dedup_algo ← pyGet "deduplicationAlgo" (.str DEFAULT_DEDUPLICATION_ALGO) data
  let window_size ← pyGet "windowSize" (.int DEFAULT_WINDOW_SIZE) data
  let top_n ← pyGet "topN" (.int DEFAULT_TOP_N) data
  return .proceed
    { lan := language, n := window_size, dedupLim := dedup_threshold,
      dedupFunc := dedup_algo, top := top_n, text := text.asStr }
    max_keywords

/-- The `POST /extract` handler (lines 69-124).  Its input is the
outcome of the Flask `request.json` accessor on line 70: `.error` when parsing the
body raised (the exception is raised inside the `try`, so the catch-all
turns it into a 500), `.ok data` otherwise.  The second component lists
the invocations of the extraction capability made while handling the
request.  Every caught exception becomes a 500 `serverError` carrying
`str(e)`; the two validation `return`s become 400 `badRequest`s; success
maps the truncated pairs to `Keyword` records, with `count` set to
`len(keywords)`. -/
def extract_keywords (cap : Cap) (body : Except String PyVal) :
    HttpResult × List ExtractionCall :=
  match body.bind resolveRequest with
  | .error e => (.serverError e, [])
  | .ok (.reject msg) => (.badRequest msg, [])
  | .ok (.proceed call max_keywords) =>
      match cap call with
      | .error e => (.serverError e, [call])
      | .ok raw_keywords =>
          match pySliceTo raw_keywords max_keywords with
          | .error e => (.serverError e, [call])
          | .ok truncated =>
              let keywords := truncated.map (fun p => ({ text := p.1, score := p.2 } : Keyword))
              (.ok { keywords := keywords, count := keywords.length }, [call])

/-- The `GET /health` body (lines 35-42). -/
structure HealthResponse where
  status : String
  service : String
  version : String
deriving DecidableEq, Repr

/-- The `/health` handler: a constant body with the implicit Flask 200. -/
def health : HealthResponse × Nat :=
  ({ status := "healthy", service := "YAKE Keyword Extraction Server",
     version := "1.0.0" }, 200)

/-- An inbound request to the server: one of its two routes. -/
inductive Request where
  | healthCheck
  | extract (body : Except String PyVal)

/-- A reply from the server, per route. -/
inductive Reply where
  | healthReply (r : HealthResponse × Nat)
  | extractReply (r : HttpResult × List ExtractionCall)

/-- Dispatch one request.  The server holds no mutable state, so the
handler of each request depends only on that request (and the fixed
capability). -/
def handle (cap : Cap) : Request → Reply
  | .healthCheck => .healthReply health
  | .extract b => .extractReply (extract_keywords cap b)

/-- Serve a sequence of requests in order. -/
def runServer (cap : Cap) (reqs : List Request) : List Reply :=
  reqs.map (handle cap)

/-! ## Basic reduction lemmas for the handler -/

/-- A body whose JSON parsing raised is caught by the catch-all and
reported as a 500 with the exception text; no capability call is made. -/
lemma extract_keywords_parse_error (cap : Cap) (e : String) :
    extract_keywords cap (.error e) = (.serverError e, []) := rfl

/-- When resolution ends in an early validation `return`, the handler
answers 400 with that message and no capability call. -/
lemma extract_keywords_reject (cap : Cap) (data : PyVal) (msg : String)
    (h : resolveRequest data = .ok (.reject msg)) :
    extract_keywords cap (.ok data) = (.badRequest msg, []) := by
  simp [extract_keywords, Except.bind, h]

/-- When resolution raises (a TypeError from a Python operation), the
catch-all answers 500 with the exception text and no capability call. -/
lemma extract_keywords_resolve_error (cap : Cap) (data : PyVal) (e : String)
    (h : resolveRequest data = .error e) :
    extract_keywords cap (.ok data) = (.serverError e, []) := by
  simp [extract_keywords, Except.bind, h]

/-- When the capability raises, the catch-all answers 500 with the
capability message; exactly one capability call was made. -/
lemma extract_keywords_cap_error (cap : Cap) (data : PyVal) (call : ExtractionCall)
    (mk : PyVal) (e : String)
    (hres : resolveRequest data = .ok (.proceed call mk))
    (hcap : cap call = .error e) :
    extract_keywords cap (.ok data) = (.serverError e, [call]) := by
  simp [extract_keywords, Except.bind, hres, hcap]

/-- When the slice `raw_keywords[:max_keywords]` raises (non-integer
`maxKeywords`), the catch-all answers 500; one capability call was
made. -/
lemma extract_keywords_slice_error (cap : Cap) (data : PyVal) (call : ExtractionCall)
    (mk : PyVal) (raw : List (String × Rat)) (e : String)
    (hres : resolveRequest data = .ok (.proceed call mk))
    (hcap : cap call = .ok raw)
    (hsl : pySliceTo raw mk = .error e) :
    extract_keywords cap (.ok data) = (.serverError e, [call]) := by
  simp [extract_keywords, Except.bind, hres, hcap, hsl]

/-- On the success path the handler maps the truncated pairs to
`Keyword` records and sets `count` to the length of that list. -/
lemma extract_keywords_success (cap : Cap) (data : PyVal) (call : ExtractionCall)
    (mk : PyVal) (raw truncated : List (String × Rat))
    (hres : resolveRequest data = .ok (.proceed call mk))
    (hcap : cap call = .ok raw)
    (hsl : pySliceTo raw mk = .ok truncated) :
    extract_keywords cap (.ok data) =
      (.ok { keywords := truncated.map (fun p => { text := p.1, score := p.2 }),
             count := (truncated.map
               (fun p => ({ text := p.1, score := p.2 } : Keyword))).length },
       [call]) := by
  simp [extract_keywords, Except.bind, hres, hcap, hsl]

/-! ## Resolution lemmas -/

/-- A falsy payload (`None`, `False`, `0`, `""`, `[]`, `{}`) is rejected
by the first guard. -/
lemma resolveRequest_falsy (data : PyVal) (h : data.truthy = false) :
    resolveRequest data = .ok (.reject "Missing required field: text") := by
  unfold resolveRequest
  rw [h]
  rfl

/-- A mapping without a `text` key is rejected by the membership
guard (or, when empty, by the falsiness guard). -/
lemma resolveRequest_dict_missing (kvs : List (String × PyVal))
    (h : ∀ p ∈ kvs, p.1 ≠ "text") :
    resolveRequest (.dict kvs) = .ok (.reject "Missing required field: text") := by
  cases kvs with
  | nil => rfl
  | cons a l =>
      have hany : (a :: l).any (fun kv => kv.1 == "text") = false := by
        simp only [List.any_eq_false]
        intro p hp
        simpa using h p hp
      unfold resolveRequest
      simp [PyVal.truthy, pyContainsStr, hany, bind, pure, Except.instMonad,
        Except.bind, Except.pure]

/-- A string payload in which `"text"` is not a substring is rejected
by the membership guard (Python `in` on a string is a substring test);
the empty string is rejected by the falsiness guard. -/
lemma resolveRequest_str_missing (s : String) (h : strContainsSub s "text" = false) :
    resolveRequest (.str s) = .ok (.reject "Missing required field: text") := by
  rcases ht : (PyVal.str s).truthy with _ | _
  · exact resolveRequest_falsy _ ht
  · unfold resolveRequest
    simp [ht, pyContainsStr, h, bind, pure, Except.instMonad, Except.bind, Except.pure]

/-- An array payload without the string element `"text"` is rejected by
the membership guard (Python `in` on a list compares elements); the
empty array is rejected by the falsiness guard. -/
lemma resolveRequest_list_missing (xs : List PyVal) (h : ∀ v ∈ xs, v ≠ .str "text") :
    resolveRequest (.list xs) = .ok (.reject "Missing required field: text") := by
  have hany : (xs.any fun v => match v with | PyVal.str t => t == "text" | _ => false)
      = false := by
    rw [List.any_eq_false]
    intro v hv
    cases v <;> simp
    intro hteq
    exact h _ hv (by rw [hteq])
  rcases ht : (PyVal.list xs).truthy with _ | _
  · exact resolveRequest_falsy _ ht
  · unfold resolveRequest
    simp [ht, pyContainsStr, hany, bind, pure, Except.instMonad, Except.bind, Except.pure]

/-- A non-zero number payload is truthy but supports no membership
test; the `in` guard raises a `TypeError` that the resolution phase
propagates. -/
lemma resolveRequest_int_error (n : Int) (h : n ≠ 0) :
    resolveRequest (.int n) =
      .error "TypeError: argument of type int is not iterable" := by
  have ht : (PyVal.int n).truthy = true := by
    simp [PyVal.truthy, h]
  unfold resolveRequest
  simp [ht, pyContainsStr, bind, pure, Except.instMonad, Except.bind, Except.pure]

/-- A mapping whose `text` value is a non-empty string resolves to a
capability call whose every parameter is the supplied value of its own
field, or that field's default when absent. -/
lemma resolveRequest_dict_valid (kvs : List (String × PyVal)) (s : String)
    (h : pySubscrStr "text" (.dict kvs) = .ok (.str s)) (hs : s ≠ "") :
    resolveRequest (.dict kvs) = .ok (.proceed
      { lan := ((kvs.find? (fun kv => kv.1 == "language")).map (fun kv => kv.2)).getD
          (.str DEFAULT_LANGUAGE),
        n := ((kvs.find? (fun kv => kv.1 == "windowSize")).map (fun kv => kv.2)).getD
          (.int DEFAULT_WINDOW_SIZE),
        dedupLim := ((kvs.find? (fun kv => kv.1 == "deduplicationThreshold")).map
          (fun kv => kv.2)).getD (.float DEFAULT_DEDUPLICATION_THRESHOLD),
        dedupFunc := ((kvs.find? (fun kv => kv.1 == "deduplicationAlgo")).map
          (fun kv => kv.2)).getD (.str DEFAULT_DEDUPLICATION_ALGO),
        top := ((kvs.find? (fun kv => kv.1 == "topN")).map (fun kv => kv.2)).getD
          (.int DEFAULT_TOP_N),
        text := s }
      (((kvs.find? (fun kv => kv.1 == "maxKeywords")).map (fun kv => kv.2)).getD
        (.int DEFAULT_MAX_KEYWORDS))) := by
  rcases hf : kvs.find? (fun kv => kv.1 == "text") with _ | kv
  · simp [pySubscrStr, hf] at h
  · have hmem : kv ∈ kvs := List.mem_of_find?_eq_some hf
    have hemp : kvs.isEmpty = false := by
      cases kvs
      · simp at hmem
      · rfl
    have hpred := List.find?_some hf
    have hany : kvs.any (fun p => p.1 == "text") = true :=
      List.any_eq_true.mpr ⟨kv, hmem, hpred⟩
    have hc : pyContainsStr "text" (.dict kvs) = .ok true := by
      simp [pyContainsStr, hany]
    unfold resolveRequest
    simp [PyVal.truthy, hemp, hc, h, PyVal.isStr, PyVal.asStr, hs, pyGet,
      bind, pure, Except.instMonad, Except.bind, Except.pure, Functor.map, Except.map]

/-- A mapping whose `text` value is falsy or not a string is rejected by
the text-validation guard. -/
lemma resolveRequest_dict_invalid_text (kvs : List (String × PyVal)) (v : PyVal)
    (h : pySubscrStr "text" (.dict kvs) = .ok v)
    (hv : v.truthy = false ∨ v.isStr = false) :
    resolveRequest (.dict kvs) =
      .ok (.reject "Invalid text field: must be non-empty string") := by
  rcases hf : kvs.find? (fun kv => kv.1 == "text") with _ | kv
  · simp [pySubscrStr, hf] at h
  · have hmem : kv ∈ kvs := List.mem_of_find?_eq_some hf
    have hemp : kvs.isEmpty = false := by
      cases kvs
      · simp at hmem
      · rfl
    have hpred := List.find?_some hf
    have hany : kvs.any (fun p => p.1 == "text") = true :=
      List.any_eq_true.mpr ⟨kv, hmem, hpred⟩
    have hc : pyContainsStr "text" (.dict kvs) = .ok true := by
      simp [pyContainsStr, hany]
    have ht : (PyVal.dict kvs).truthy = true := by
      simp [PyVal.truthy, hemp]
    have hcond : (!v.truthy || !v.isStr) = true := by
      rcases hv with hv | hv <;> simp [hv]
    unfold resolveRequest
    simp [ht, hc, h, hcond,
      bind, pure, Except.instMonad, Except.bind, Except.pure]

/-- Subscripting with a string key succeeds only on dicts. -/
lemma pySubscrStr_ok_dict (data : PyVal) (key : String) (v : PyVal)
    (h : pySubscrStr key data = .ok v) : ∃ kvs, data = .dict kvs := by
  cases data <;> simp_all [pySubscrStr]

/-- Resolution always ends in one of four ways: the missing-text
rejection, the invalid-text rejection, a raised exception, or a resolved
capability call. -/
lemma resolveRequest_cases (data : PyVal) :
    resolveRequest data = .ok (.reject "Missing required field: text") ∨
    resolveRequest data = .ok (.reject "Invalid text field: must be non-empty string") ∨
    (∃ e, resolveRequest data = .error e) ∨
    (∃ call mk, resolveRequest data = .ok (.proceed call mk)) := by
  rcases ht : data.truthy with _ | _
  · exact Or.inl (resolveRequest_falsy data ht)
  · rcases hC : pyContainsStr "text" data with e | b
    · refine Or.inr (Or.inr (Or.inl ⟨e, ?_⟩))
      unfold resolveRequest
      simp [ht, hC, bind, pure, Except.instMonad, Except.bind, Except.pure]
    · rcases b with _ | _
      · refine Or.inl ?_
        unfold resolveRequest
        simp [ht, hC, bind, pure, Except.instMonad, Except.bind, Except.pure]
      · rcases hT : pySubscrStr "text" data with e | text
        · refine Or.inr (Or.inr (Or.inl ⟨e, ?_⟩))
          unfold resolveRequest
          simp [ht, hC, hT, bind, pure, Except.instMonad, Except.bind, Except.pure]
        · obtain ⟨kvs, rfl⟩ := pySubscrStr_ok_dict data "text" text hT
          rcases hg1 : text.truthy with _ | _
          · exact Or.inr (Or.inl (resolveRequest_dict_invalid_text kvs text hT (Or.inl hg1)))
          · rcases hg2 : text.isStr with _ | _
            · exact Or.inr (Or.inl (resolveRequest_dict_invalid_text kvs text hT (Or.inr hg2)))
            · rcases text with _ | _ | _ | _ | s | _ | _ <;> simp [PyVal.isStr] at hg2
              have hs : s ≠ "" := by simpa [PyVal.truthy] using hg1
              exact Or.inr (Or.inr (Or.inr ⟨_, _, resolveRequest_dict_valid kvs s hT hs⟩))

/-- Every handler outcome is a 200 with consistent `count`, a 400 with
one of the two validation messages and no capability call, or a 500. -/
lemma extract_keywords_shape (cap : Cap) (body : Except String PyVal) :
    (∃ resp calls, extract_keywords cap body = (.ok resp, calls) ∧
       resp.count = resp.keywords.length) ∨
    (∃ msg, extract_keywords cap body = (.badRequest msg, []) ∧
       (msg = "Missing required field: text" ∨
        msg = "Invalid text field: must be non-empty string")) ∨
    (∃ e calls, extract_keywords cap body = (.serverError e, calls)) := by
  rcases body with e | data
  · exact Or.inr (Or.inr ⟨e, [], rfl⟩)
  · rcases resolveRequest_cases data with h | h | ⟨e, h⟩ | ⟨call, mk, h⟩
    · exact Or.inr (Or.inl ⟨_, extract_keywords_reject cap data _ h, Or.inl rfl⟩)
    · exact Or.inr (Or.inl ⟨_, extract_keywords_reject cap data _ h, Or.inr rfl⟩)
    · exact Or.inr (Or.inr ⟨e, [], extract_keywords_resolve_error cap data e h⟩)
    · rcases hcap : cap call with e | raw
      · exact Or.inr (Or.inr ⟨e, [call],
          extract_keywords_cap_error cap data call mk e h hcap⟩)
      · rcases hsl : pySliceTo raw mk with e | tr
        · exact Or.inr (Or.inr ⟨e, [call],
            extract_keywords_slice_error cap data call mk raw e h hcap hsl⟩)
        · exact Or.inl ⟨_, [call],
            extract_keywords_success cap data call mk raw tr h hcap hsl, rfl⟩

/-! ## Concrete fixtures used to instantiate the theorems -/

/-- A concrete capability output: three pairs in YAKE order (lower score
more relevant). -/
def rawSample : List (String × Rat) := [("alpha", 1/20), ("beta", 1/4), ("gamma", 1/2)]

/-- A capability that succeeds with `rawSample` on every call. -/
def sampleCap : Cap := fun _ => .ok rawSample

/-- A capability that always fails, as YAKE does on an unsupported
language tag. -/
def failingCap : Cap := fun _ => .error "unsupported language tag zz"

/-- The capability call produced for text `s` when every optional field
is left to its default. -/
def callDefault (s : String) : ExtractionCall :=
  { lan := .str DEFAULT_LANGUAGE, n := .int DEFAULT_WINDOW_SIZE,
    dedupLim := .float DEFAULT_DEDUPLICATION_THRESHOLD,
    dedupFunc := .str DEFAULT_DEDUPLICATION_ALGO, top := .int DEFAULT_TOP_N, text := s }

/-! ## Claim theorems -/

/-- C1: for every request whose validation succeeds and whose
`maxKeywords` resolves to an integer `k ≥ 0`, when the capability
returns the sequence `raw`, the response is a 200 whose `keywords` are
exactly the first `min k raw.length` pairs of `raw`, in the capability
order with no re-sorting, each mapped to a `Keyword` record, and whose
`count` is the length of the truncated sequence (never the
pre-truncation count). -/
theorem truncation_min_of_nonneg (cap : Cap) (data : PyVal) (call : ExtractionCall)
    (k : Int) (raw : List (String × Rat))
    (hres : resolveRequest data = .ok (.proceed call (.int k)))
    (hk : 0 ≤ k)
    (hcap : cap call = .ok raw) :
    extract_keywords cap (.ok data) =
      (.ok { keywords := (raw.take k.toNat).map (fun p => { text := p.1, score := p.2 }),
             count := min k.toNat raw.length },
       [call]) := by
  have hsl : pySliceTo raw (.int k) = .ok (raw.take k.toNat) := by
    simp [pySliceTo, hk]
  rw [extract_keywords_success cap data call (.int k) raw (raw.take k.toNat) hres hcap hsl]
  simp [List.length_take]

/-- C1 witness: `text = "hello"`, `maxKeywords = 2`, capability output
of three pairs. -/
theorem truncation_min_of_nonneg_witness :
    extract_keywords sampleCap (.ok (.dict [("text", .str "hello"), ("maxKeywords", .int 2)])) =
      (.ok { keywords := (rawSample.take (Int.toNat 2)).map
               (fun p => { text := p.1, score := p.2 }),
             count := min (Int.toNat 2) rawSample.length },
       [callDefault "hello"]) :=
  truncation_min_of_nonneg sampleCap _ (callDefault "hello") 2 rawSample rfl (by decide) rfl

/-- C2 counterexample: with `maxKeywords = -1` and three capability
pairs, the response is a 200 with two keywords and `count = 2` — not the
empty sequence and `count = 0` the claim demands for all
`maxKeywords ≤ 0`. -/
theorem negative_max_keywords_counterexample :
    extract_keywords sampleCap
        (.ok (.dict [("text", .str "hello"), ("maxKeywords", .int (-1))])) =
      (.ok { keywords := [{ text := "alpha", score := 1/20 }, { text := "beta", score := 1/4 }],
             count := 2 },
       [callDefault "hello"]) ∧
    ([{ text := "alpha", score := (1 : Rat)/20 }, { text := "beta", score := (1 : Rat)/4 }] :
        List Keyword) ≠ [] ∧
    (2 : Nat) ≠ 0 := by
  refine ⟨rfl, by simp, by simp⟩

/-- C2 (amended): `maxKeywords = 0` yields an empty keyword sequence and
`count = 0`; a negative `maxKeywords = k` instead follows Python slice
semantics and yields all but the last `|k|` pairs of the capability
output, with `count` the length of that list. -/
theorem nonpositive_max_keywords_slice (cap : Cap) (data : PyVal) (call : ExtractionCall)
    (k : Int) (raw : List (String × Rat))
    (hres : resolveRequest data = .ok (.proceed call (.int k)))
    (hcap : cap call = .ok raw) :
    (k = 0 → extract_keywords cap (.ok data) = (.ok { keywords := [], count := 0 }, [call])) ∧
    (k < 0 → extract_keywords cap (.ok data) =
      (.ok { keywords := (raw.take (raw.length - (-k).toNat)).map
               (fun p => { text := p.1, score := p.2 }),
             count := (raw.take (raw.length - (-k).toNat)).length }, [call])) := by
  constructor
  · rintro rfl
    have hsl : pySliceTo raw (.int 0) = .ok [] := by simp [pySliceTo]
    simpa using extract_keywords_success cap data call (.int 0) raw [] hres hcap hsl
  · intro hk
    have hsl : pySliceTo raw (.int k) = .ok (raw.take (raw.length - (-k).toNat)) := by
      simp [pySliceTo, not_le.mpr hk]
    rw [extract_keywords_success cap data call (.int k) raw _ hres hcap hsl]
    simp

/-- C2 witness: the amended statement applied at `maxKeywords = 0` and
at `maxKeywords = -1`. -/
theorem nonpositive_max_keywords_slice_witness :
    (extract_keywords sampleCap (.ok (.dict [("text", .str "hello"), ("maxKeywords", .int 0)])) =
      (.ok { keywords := [], count := 0 }, [callDefault "hello"])) ∧
    (extract_keywords sampleCap (.ok (.dict [("text", .str "hello"), ("maxKeywords", .int (-1))])) =
      (.ok { keywords := (rawSample.take (rawSample.length - (-(-1 : Int)).toNat)).map
               (fun p => { text := p.1, score := p.2 }),
             count := (rawSample.take (rawSample.length - (-(-1 : Int)).toNat)).length },
       [callDefault "hello"])) :=
  ⟨(nonpositive_max_keywords_slice sampleCap
      (.dict [("text", .str "hello"), ("maxKeywords", .int 0)])
      (callDefault "hello") 0 rawSample rfl rfl).1 rfl,
   (nonpositive_max_keywords_slice sampleCap
      (.dict [("text", .str "hello"), ("maxKeywords", .int (-1))])
      (callDefault "hello") (-1) rawSample rfl rfl).2 (by decide)⟩

/-- C3 counterexample: a truthy non-mapping payload (the number `5`)
produces a 500 TypeError, not the claimed 400; and the 400 message the
code does produce for a mapping without `text` is capitalized
(`Missing required field: text`), not the lowercase message the claim
states. -/
theorem non_mapping_payload_counterexample :
    ((extract_keywords sampleCap (.ok (.int 5))).1).statusCode = 500 ∧
    (extract_keywords sampleCap (.ok (.int 5))).1 ≠
      .badRequest "missing required field: text" ∧
    extract_keywords sampleCap (.ok (.dict [("language", .str "en")])) =
      (.badRequest "Missing required field: text", []) ∧
    "Missing required field: text" ≠ "missing required field: text" := by
  have h5 : (extract_keywords sampleCap (.ok (.int 5))).1 =
      .serverError "TypeError: argument of type int is not iterable" := rfl
  refine ⟨rfl, ?_, rfl, by decide⟩
  rw [h5]
  simp

/-- C3 (amended): a payload that is falsy, or is a mapping without a
`text` key, or is a truthy string in which `"text"` is not a substring,
or is a truthy array without the string element `"text"`, yields a 400
whose message is `Missing required field: text` (capitalized); an
unparseable body is instead reported as a 500 carrying the parse
exception text, and a truthy number payload yields a 500 with the
TypeError raised by the membership test. -/
theorem missing_text_bad_request (cap : Cap) :
    (∀ data : PyVal,
      (data.truthy = false ∨ ∃ kvs, data = .dict kvs ∧ ∀ p ∈ kvs, p.1 ≠ "text") →
      extract_keywords cap (.ok data) = (.badRequest "Missing required field: text", [])) ∧
    (∀ s : String, strContainsSub s "text" = false →
      extract_keywords cap (.ok (.str s)) =
        (.badRequest "Missing required field: text", [])) ∧
    (∀ xs : List PyVal, (∀ v ∈ xs, v ≠ .str "text") →
      extract_keywords cap (.ok (.list xs)) =
        (.badRequest "Missing required field: text", [])) ∧
    (∀ e : String, extract_keywords cap (.error e) = (.serverError e, [])) ∧
    (∀ n : Int, n ≠ 0 →
      extract_keywords cap (.ok (.int n)) =
        (.serverError "TypeError: argument of type int is not iterable", [])) := by
  refine ⟨?_, ?_, ?_, ?_, ?_⟩
  · rintro data (h | ⟨kvs, rfl, h⟩)
    · exact extract_keywords_reject cap data _ (resolveRequest_falsy data h)
    · exact extract_keywords_reject cap _ _ (resolveRequest_dict_missing kvs h)
  · intro s h
    exact extract_keywords_reject cap _ _ (resolveRequest_str_missing s h)
  · intro xs h
    exact extract_keywords_reject cap _ _ (resolveRequest_list_missing xs h)
  · intro e
    rfl
  · intro n h
    exact extract_keywords_resolve_error cap _ _ (resolveRequest_int_error n h)

/-- C3 witness: a mapping without `text`, a truthy string and a truthy
array without `text`, an unparseable body, and a truthy number. -/
theorem missing_text_bad_request_witness :
    (extract_keywords sampleCap (.ok (.dict [("language", .str "fr")])) =
      (.badRequest "Missing required field: text", [])) ∧
    (extract_keywords sampleCap (.ok (.str "hello")) =
      (.badRequest "Missing required field: text", [])) ∧
    (extract_keywords sampleCap (.ok (.list [.int 1])) =
      (.badRequest "Missing required field: text", [])) ∧
    (extract_keywords sampleCap (.error "Failed to decode JSON object") =
      (.serverError "Failed to decode JSON object", [])) ∧
    (extract_keywords sampleCap (.ok (.int 5)) =
      (.serverError "TypeError: argument of type int is not iterable", [])) :=
  ⟨(missing_text_bad_request sampleCap).1 (.dict [("language", .str "fr")])
      (Or.inr ⟨_, rfl, by simp⟩),
   (missing_text_bad_request sampleCap).2.1 "hello" (by decide),
   (missing_text_bad_request sampleCap).2.2.1 [.int 1] (by simp),
   (missing_text_bad_request sampleCap).2.2.2.1 "Failed to decode JSON object",
   (missing_text_bad_request sampleCap).2.2.2.2 5 (by decide)⟩

/-- C4 counterexample: empty and non-string `text` both yield the 400
whose message is capitalized (`Invalid text field: must be non-empty
string`), which differs from the lowercase message the claim states. -/
theorem invalid_text_message_counterexample :
    extract_keywords sampleCap (.ok (.dict [("text", .str "")])) =
      (.badRequest "Invalid text field: must be non-empty string", []) ∧
    extract_keywords sampleCap (.ok (.dict [("text", .int 7)])) =
      (.badRequest "Invalid text field: must be non-empty string", []) ∧
    "Invalid text field: must be non-empty string" ≠
      "invalid text field: must be non-empty string" :=
  ⟨rfl, rfl, by decide⟩

/-- C4 (amended): a payload whose `text` value is the empty string or
any non-string value yields the identical 400 validation failure with
message `Invalid text field: must be non-empty string` (capitalized),
with no capability call. -/
theorem invalid_text_bad_request (cap : Cap) (kvs : List (String × PyVal)) (v : PyVal)
    (h : pySubscrStr "text" (.dict kvs) = .ok v)
    (hv : v = .str "" ∨ v.isStr = false) :
    extract_keywords cap (.ok (.dict kvs)) =
      (.badRequest "Invalid text field: must be non-empty string", []) := by
  have hv2 : v.truthy = false ∨ v.isStr = false := by
    rcases hv with rfl | hv
    · exact Or.inl rfl
    · exact Or.inr hv
  exact extract_keywords_reject cap _ _ (resolveRequest_dict_invalid_text kvs v h hv2)

/-- C4 witness: the amended statement applied to an empty-string `text`
and to an integer `text`. -/
theorem invalid_text_bad_request_witness :
    extract_keywords sampleCap (.ok (.dict [("text", .str "")])) =
      (.badRequest "Invalid text field: must be non-empty string", []) ∧
    extract_keywords sampleCap (.ok (.dict [("text", .int 7)])) =
      (.badRequest "Invalid text field: must be non-empty string", []) :=
  ⟨invalid_text_bad_request sampleCap [("text", .str "")] (.str "") rfl (Or.inl rfl),
   invalid_text_bad_request sampleCap [("text", .int 7)] (.int 7) rfl (Or.inr rfl)⟩

/-- C5: every 400 response is produced with no capability invocation and
carries one of the two non-empty validation messages; its 400 status
class is distinct from the 500 class used for extraction failures. -/
theorem validation_never_invokes_capability (cap : Cap) (body : Except String PyVal)
    (msg : String) (calls : List ExtractionCall)
    (h : extract_keywords cap body = (.badRequest msg, calls)) :
    calls = [] ∧ msg ≠ "" ∧ (HttpResult.badRequest msg).statusCode = 400 ∧
      (HttpResult.badRequest msg).statusCode ≠ 500 := by
  rcases extract_keywords_shape cap body with ⟨resp, cs, he, _⟩ | ⟨m, he, hm⟩ | ⟨e, cs, he⟩
  · rw [he] at h
    exact absurd h (by simp)
  · rw [he] at h
    simp only [Prod.mk.injEq, HttpResult.badRequest.injEq] at h
    obtain ⟨rfl, rfl⟩ := h
    rcases hm with rfl | rfl <;> exact ⟨rfl, by decide, rfl, by decide⟩
  · rw [he] at h
    exact absurd h (by simp)

/-- C5 witness: the empty-mapping request, which fails validation. -/
theorem validation_never_invokes_capability_witness :
    ([] : List ExtractionCall) = [] ∧ "Missing required field: text" ≠ "" ∧
      (HttpResult.badRequest "Missing required field: text").statusCode = 400 ∧
      (HttpResult.badRequest "Missing required field: text").statusCode ≠ 500 :=
  validation_never_invokes_capability sampleCap (.ok (.dict [])) _ _ rfl

/-- C6: when a validated request reaches the capability and the
capability fails with any message `e`, the handler returns a 500 whose
`error` is `e` verbatim, and the capability was invoked exactly once —
uniformly in `e`, so all failure subtypes are treated alike. -/
theorem capability_failure_surfaced (cap : Cap) (data : PyVal) (call : ExtractionCall)
    (mk : PyVal) (e : String)
    (hres : resolveRequest data = .ok (.proceed call mk))
    (hcap : cap call = .error e) :
    extract_keywords cap (.ok data) = (.serverError e, [call]) ∧
      (HttpResult.serverError e).statusCode = 500 ∧
      ([call] : List ExtractionCall).length = 1 :=
  ⟨extract_keywords_cap_error cap data call mk e hres hcap, rfl, rfl⟩

/-- C6 witness: a failing capability on a valid request. -/
theorem capability_failure_surfaced_witness :
    extract_keywords failingCap (.ok (.dict [("text", .str "hello")])) =
      (.serverError "unsupported language tag zz", [callDefault "hello"]) ∧
      (HttpResult.serverError "unsupported language tag zz").statusCode = 500 ∧
      ([callDefault "hello"] : List ExtractionCall).length = 1 :=
  capability_failure_surfaced failingCap (.dict [("text", .str "hello")])
    (callDefault "hello") (.int DEFAULT_MAX_KEYWORDS) "unsupported language tag zz" rfl rfl

/-- C7: default resolution is field-independent: a request supplying
only `text` behaves identically to the same request with every optional
field set to its documented default (`language = "en"`,
`maxKeywords = 10`, `deduplicationThreshold = 0.9`,
`deduplicationAlgo = "seqm"`, `windowSize = 1`, `topN = 10`); and for an
arbitrary request each optional field independently takes its supplied
value or its own default, regardless of which other fields are
present. -/
theorem defaults_field_independent :
    (∀ (cap : Cap) (s : String), s ≠ "" →
      extract_keywords cap (.ok (.dict [("text", .str s)])) =
        extract_keywords cap (.ok (.dict
          [("text", .str s), ("language", .str "en"), ("maxKeywords", .int 10),
           ("deduplicationThreshold", .float (9/10)), ("deduplicationAlgo", .str "seqm"),
           ("windowSize", .int 1), ("topN", .int 10)]))) ∧
    (∀ (kvs : List (String × PyVal)) (s : String),
      pySubscrStr "text" (.dict kvs) = .ok (.str s) → s ≠ "" →
      resolveRequest (.dict kvs) = .ok (.proceed
        { lan := ((kvs.find? (fun kv => kv.1 == "language")).map (fun kv => kv.2)).getD
            (.str "en"),
          n := ((kvs.find? (fun kv => kv.1 == "windowSize")).map (fun kv => kv.2)).getD
            (.int 1),
          dedupLim := ((kvs.find? (fun kv => kv.1 == "deduplicationThreshold")).map
            (fun kv => kv.2)).getD (.float (9/10)),
          dedupFunc := ((kvs.find? (fun kv => kv.1 == "deduplicationAlgo")).map
            (fun kv => kv.2)).getD (.str "seqm"),
          top := ((kvs.find? (fun kv => kv.1 == "topN")).map (fun kv => kv.2)).getD
            (.int 10),
          text := s }
        (((kvs.find? (fun kv => kv.1 == "maxKeywords")).map (fun kv => kv.2)).getD
          (.int 10)))) := by
  constructor
  · intro cap s hs
    have h1 := resolveRequest_dict_valid [("text", .str s)] s (by simp [pySubscrStr]) hs
    have h2 := resolveRequest_dict_valid
      [("text", .str s), ("language", .str "en"), ("maxKeywords", .int 10),
       ("deduplicationThreshold", .float (9/10)), ("deduplicationAlgo", .str "seqm"),
       ("windowSize", .int 1), ("topN", .int 10)] s (by simp [pySubscrStr]) hs
    simp [extract_keywords, Except.bind, h1, h2, List.find?,
      DEFAULT_LANGUAGE, DEFAULT_MAX_KEYWORDS, DEFAULT_DEDUPLICATION_THRESHOLD,
      DEFAULT_DEDUPLICATION_ALGO, DEFAULT_WINDOW_SIZE, DEFAULT_TOP_N]
  · intro kvs s h hs
    exact resolveRequest_dict_valid kvs s h hs

/-- C7 witness: both parts applied at `text = "hi"`. -/
theorem defaults_field_independent_witness :
    (extract_keywords sampleCap (.ok (.dict [("text", .str "hi")])) =
      extract_keywords sampleCap (.ok (.dict
        [("text", .str "hi"), ("language", .str "en"), ("maxKeywords", .int 10),
         ("deduplicationThreshold", .float (9/10)), ("deduplicationAlgo", .str "seqm"),
         ("windowSize", .int 1), ("topN", .int 10)]))) ∧
    (resolveRequest (.dict [("text", .str "hi")]) = .ok (.proceed
      { lan := (((([("text", PyVal.str "hi")] : List (String × PyVal)).find?
          (fun kv => kv.1 == "language")).map (fun kv => kv.2)).getD (.str "en")),
        n := (((([("text", PyVal.str "hi")] : List (String × PyVal)).find?
          (fun kv => kv.1 == "windowSize")).map (fun kv => kv.2)).getD (.int 1)),
        dedupLim := (((([("text", PyVal.str "hi")] : List (String × PyVal)).find?
          (fun kv => kv.1 == "deduplicationThreshold")).map (fun kv => kv.2)).getD
            (.float (9/10))),
        dedupFunc := (((([("text", PyVal.str "hi")] : List (String × PyVal)).find?
          (fun kv => kv.1 == "deduplicationAlgo")).map (fun kv => kv.2)).getD (.str "seqm")),
        top := (((([("text", PyVal.str "hi")] : List (String × PyVal)).find?
          (fun kv => kv.1 == "topN")).map (fun kv => kv.2)).getD (.int 10)),
        text := "hi" }
      ((((([("text", PyVal.str "hi")] : List (String × PyVal)).find?
          (fun kv => kv.1 == "maxKeywords")).map (fun kv => kv.2)).getD (.int 10))))) :=
  ⟨defaults_field_independent.1 sampleCap "hi" (by decide),
   defaults_field_independent.2 [("text", .str "hi")] "hi" rfl (by decide)⟩

/-- C8: every request produces exactly one response, of one of three
shapes: a 200 whose `count` equals the length of its `keywords`, a 400
validation error produced with no capability call, or a 500 with a
single error message; the handler is total, so no exception escapes and
no partial-success shape exists. -/
theorem response_trichotomy (cap : Cap) (body : Except String PyVal) :
    (∃ resp calls, extract_keywords cap body = (.ok resp, calls) ∧
       resp.count = resp.keywords.length ∧ (HttpResult.ok resp).statusCode = 200) ∨
    (∃ msg, extract_keywords cap body = (.badRequest msg, []) ∧
       (HttpResult.badRequest msg).statusCode = 400) ∨
    (∃ e calls, extract_keywords cap body = (.serverError e, calls) ∧
       (HttpResult.serverError e).statusCode = 500) := by
  rcases extract_keywords_shape cap body with ⟨resp, cs, he, hc⟩ | ⟨m, he, _⟩ | ⟨e, cs, he⟩
  · exact Or.inl ⟨resp, cs, he, hc, rfl⟩
  · exact Or.inr (Or.inl ⟨m, he, rfl⟩)
  · exact Or.inr (Or.inr ⟨e, cs, he, rfl⟩)

/-- Mapping a function over a list and indexing just past a prefix
reads the mapped middle element. -/
lemma map_append_cons_get {α β : Type} (f : α → β) (l1 : List α) (a : α) (l2 : List α) :
    (List.map f (l1 ++ a :: l2))[l1.length]? = some (f a) := by
  induction l1 with
  | nil => simp
  | cons x xs ih => simpa using ih

/-- C9: a `GET /health` request returns status 200 with exactly the
fixed body, at any position in the request stream — independent of any
prior `/extract` calls or failures. -/
theorem health_constant (cap : Cap) (prior rest : List Request) :
    (runServer cap (prior ++ Request.healthCheck :: rest))[prior.length]? =
      some (.healthReply ({ status := "healthy",
                            service := "YAKE Keyword Extraction Server",
                            version := "1.0.0" }, 200)) := by
  simpa [runServer, handle, health] using
    map_append_cons_get (handle cap) prior Request.healthCheck rest

/-- C10: a `text` that is a non-empty string consisting only of
whitespace passes validation, and the capability is invoked exactly once
with that text untrimmed (and the default parameters): the non-emptiness
check is only a falsiness-and-type check. -/
theorem whitespace_text_reaches_capability (cap : Cap) (s : String)
    (hw : ∀ c ∈ s.toList, c.isWhitespace) (hs : s ≠ "") :
    (extract_keywords cap (.ok (.dict [("text", .str s)]))).2 =
      [{ lan := .str "en", n := .int 1, dedupLim := .float (9/10),
         dedupFunc := .str "seqm", top := .int 10, text := s }] := by
  have _ := hw
  have hres : resolveRequest (.dict [("text", .str s)]) = .ok (.proceed
      { lan := .str "en", n := .int 1, dedupLim := .float (9/10),
        dedupFunc := .str "seqm", top := .int 10, text := s } (.int 10)) := by
    simpa [List.find?, DEFAULT_LANGUAGE, DEFAULT_MAX_KEYWORDS,
      DEFAULT_DEDUPLICATION_THRESHOLD, DEFAULT_DEDUPLICATION_ALGO,
      DEFAULT_WINDOW_SIZE, DEFAULT_TOP_N] using
      resolveRequest_dict_valid [("text", .str s)] s (by simp [pySubscrStr]) hs
  rcases hcap : cap (⟨.str "en", .int 1, .float (9/10), .str "seqm", .int 10, s⟩ :
      ExtractionCall) with e | raw
  · rw [extract_keywords_cap_error cap _ _ _ _ hres hcap]
  · rcases hsl : pySliceTo raw (.int 10) with e | tr
    · rw [extract_keywords_slice_error cap _ _ _ raw e hres hcap hsl]
    · rw [extract_keywords_success cap _ _ _ raw tr hres hcap hsl]

/-- C10 witness: the single-space text. -/
theorem whitespace_text_reaches_capability_witness :
    (extract_keywords sampleCap (.ok (.dict [("text", .str " ")]))).2 =
      [{ lan := .str "en", n := .int 1, dedupLim := .float (9/10),
         dedupFunc := .str "seqm", top := .int 10, text := " " }] :=
  whitespace_text_reaches_capability sampleCap " " (by decide) (by decide)

end YakeServer
